import Mathlib

/-!
Verification of the content-aggregation and schema-constrained extraction
pipeline of the `scraping_test` repository.

The Python sources are shallowly embedded:

* `src/helpers/geminiHelper.py` : `ClinicData` and its sub-models,
  `get_gemini_client`, `extract_clinic_data`,
  `_prepare_content_for_extraction`, `_build_extraction_prompt`;
* `src/routes/scraper.py` : `ScrapeRequest` URL validation, the
  `/scraper/crawl` handler `crawl_and_extract`, and the envelope model
  `ScrapeResponse`;
* `src/helpers/scraperHelper.py` : the result-processing stage of
  `deep_crawl_website` and `_should_skip_url`.

Python strings are modelled as Lean `String` (a list of unicode code
points, matching the Python `len`/slicing semantics on code points);
`None` is modelled with `Option`; a raised exception is modelled with
`Except`.  External collaborators (the crawl engine, the Gemini
generate-content service) are modelled as explicit function parameters
("oracles"), so theorems quantify over every possible collaborator
behaviour.
-/

/-! ### String utilities (Python semantics helpers) -/

/-- Python slice `s[:n]` on code points. -/

def pySlice (s : String) (n : Nat) : String :=
  String.mk (s.data.take n)

/-- Python `"".join(l)`: concatenation of the strings of `l` in order. -/

def joinAll : List String → String
  | [] => ""
  | s :: rest => s ++ joinAll rest

/-- Occurrence test for `pat` inside `s` (Python `pat in s`), on char lists. -/

def containsSub (pat : List Char) : List Char → Bool
  | [] => pat.isEmpty
  | c :: rest => pat.isPrefixOf (c :: rest) || containsSub pat rest

/-- Number of (possibly overlapping) occurrences of `pat` in a char list. -/

def countSub (pat : List Char) : List Char → Nat
  | [] => 0
  | c :: rest => (if pat.isPrefixOf (c :: rest) then 1 else 0) + countSub pat rest

/-- Python `s.lower()` (ASCII case folding suffices for the URLs involved). -/

def toLowerStr (s : String) : String :=
  String.mk (s.data.map Char.toLower)

/-- Python whitespace for `str.strip()` (space, tab, LF, CR, VT, FF). -/

def pyWhitespace (c : Char) : Bool :=
  c.toNat == 32 || c.toNat == 9 || c.toNat == 10 ||
  c.toNat == 13 || c.toNat == 11 || c.toNat == 12

/-- Python `s.strip()`. -/

def pyStrip (s : String) : String :=
  String.mk (((s.data.dropWhile pyWhitespace).reverse.dropWhile pyWhitespace).reverse)

structure Page where
  url : String
  content : String
deriving DecidableEq, Repr

/-! ### Content aggregator
`src/helpers/geminiHelper.py`, `_prepare_content_for_extraction`. -/

/-- `max_chars_per_page = 50000` (geminiHelper.py line 137). -/

def max_chars_per_page : Nat := 50000

/-- `max_total_chars = 500000` (geminiHelper.py line 138). -/

def max_total_chars : Nat := 500000

/-- The fixed truncation marker appended to over-long pages. -/

def truncMarker : String := "\n...[content truncated]"

/-- `content[:max_chars_per_page] + "\n...[content truncated]"` when the
page is longer than `max_chars_per_page`, the content unchanged otherwise. -/

def truncateContent (content : String) : String :=
  if content.length > max_chars_per_page then
    pySlice content max_chars_per_page ++ truncMarker
  else content

/-- `f"--- PAGE: {url} ---\n{content}\n\n"`. -/

def formatPage (url content : String) : String :=
  "--- PAGE: " ++ url ++ " ---\n" ++ content ++ "\n\n"

/-- The `for page in pages_data` loop of `_prepare_content_for_extraction`:
skip pages whose stripped content is empty (`if not content.strip(): continue`),
truncate over-long pages, and stop altogether (`break`) as soon as appending
the next formatted page would push `total_chars` past `max_total_chars`. -/

def prepareLoop : List Page → Nat → List String
  | [], _ => []
  | p :: rest, total =>
    if pyStrip p.content = "" then
      prepareLoop rest total
    else
      let page_text := formatPage p.url (truncateContent p.content)
      if total + page_text.length > max_total_chars then
        []
      else
        page_text :: prepareLoop rest (total + page_text.length)

/-- `_prepare_content_for_extraction(pages_data)`: `"".join(formatted_pages)`. -/

def _prepare_content_for_extraction (pages_data : List Page) : String :=
  joinAll (prepareLoop pages_data 0)

/-- The pages the loop does not `continue` over: stripped content non-empty. -/

def keptPages (pages : List Page) : List Page :=
  pages.filter (fun p => !(pyStrip p.content == ""))

/-- The formatted block a page contributes when it is included. -/

def fmtOf (p : Page) : String :=
  formatPage p.url (truncateContent p.content)


/-! ### Extraction schema (geminiHelper.py pydantic models)

The response-schema models, with the same defaults as the Python
source: unset string fields default to `""`, lists to `[]`, booleans to
`false`, and `businessHours` to an all-empty `BusinessHours` — never to
a null. -/

/-- `Veterinarian` (geminiHelper.py lines 19-24): `name` and
`specialties` are required, `acceptingNewPatients` defaults to `False`. -/

structure Veterinarian where
  name : String
  specialties : String
  acceptingNewPatients : Bool := false
deriving DecidableEq, Repr

/-- `BusinessHours` (geminiHelper.py lines 27-36): each day defaults to `""`. -/

structure BusinessHours where
  monday : String := ""
  tuesday : String := ""
  wednesday : String := ""
  thursday : String := ""
  friday : String := ""
  saturday : String := ""
  sunday : String := ""
deriving DecidableEq, Repr

/-- `ClinicData` (geminiHelper.py lines 39-58). -/

structure ClinicData where
  name : String := ""
  phoneNumber : String := ""
  address : String := ""
  city : String := ""
  state : String := ""
  pincode : String := ""
  website : String := ""
  email : String := ""
  businessHours : BusinessHours := {}
  is_24_7 : Bool := false
  holidayClosures : String := ""
  veterinarians : List Veterinarian := []
  practiceManager : String := ""
  headTechnician : String := ""
  servicesOffered : List String := []
  servicesNotOffered : String := ""
  speciesTreated : List String := []
deriving DecidableEq, Repr

/-- `ClinicData()` — the record with every field at its empty default. -/

def ClinicData.empty : ClinicData := {}

/-! ### Gemini client and extraction call (geminiHelper.py) -/

/-- `GEMINI_MODEL = "gemini-2.5-flash"`. -/

def GEMINI_MODEL : String := "gemini-2.5-flash"

/-- `genai.Client(api_key=...)` — only the configuration is relevant here. -/

structure GeminiClient where
  api_key : String
deriving DecidableEq, Repr

/-- `get_gemini_client()` (geminiHelper.py lines 61-76): raises
`ValueError` when `settings.gemini_api_key` is unset or empty
(`if not api_key`), else returns a configured client.  The raised
`ValueError` is modelled as `Except.error` carrying `str(e)`. -/

def get_gemini_client (gemini_api_key : Option String) : Except String GeminiClient :=
  match gemini_api_key with
  | none =>
    Except.error "Gemini API key is required. Set GEMINI_API_KEY environment variable."
  | some k =>
    if k = "" then
      Except.error "Gemini API key is required. Set GEMINI_API_KEY environment variable."
    else
      Except.ok ⟨k⟩

/-- One `client.aio.models.generate_content` request as issued by
`extract_clinic_data` (geminiHelper.py lines 103-114): the model name,
the contents string, and the `GenerateContentConfig` fields
`temperature`, `response_mime_type`, `response_schema` (recorded as
"is the `ClinicData` schema"), and `thinking_config.thinking_budget`. -/

structure GenRequest where
  model : String
  contents : String
  temperature : Int
  response_mime_type : String
  response_schema_ClinicData : Bool
  thinking_budget : Int
deriving DecidableEq, Repr

/-- `_build_extraction_prompt()` (geminiHelper.py lines 167-263), verbatim
(literal braces written with escapes). -/

def _build_extraction_prompt : String := "You are a data extraction specialist. Extract structured information about a veterinary clinic from the provided website content.

Extract all available information about the clinic. The data will be validated against a strict schema and sent directly to a frontend form.

IMPORTANT: Return data in this exact structure - it will populate a form with ZERO transformation.

INSTRUCTIONS:
1. name: Extract the full business name of the veterinary clinic (string)
   - If none found, return empty string \"\"

2. phoneNumbers: Extract ALL phone numbers as a comma-separated string
   - Format: \"(555) 123-4567, (555) 123-4568\" or \"(555) 123-4567\"
   - If multiple numbers, separate with comma and space
   - If none found, return empty string \"\"

3. address: Extract the primary street address only (string)
   - Format: \"123 Oak Street\" (street number and name only)
   - If none found, return empty string \"\"

4. city: Extract the city name (string)
   - If none found, return empty string \"\"

5. state: Extract the state name or abbreviation (string)
   - If none found, return empty string \"\"

6. pincode: Extract the ZIP/postal code (string)
   - If none found, return empty string \"\"

7. website: Extract the clinic\x27s website URL (string)
   - If none found, return empty string \"\"

8. email Extract one or more email address

9. businessHours: Extract business hours as a simple object with day keys
   - Format: Simple strings like \"8:00 AM - 6:00 PM\", \"Closed\", or \"24/7\"
   - Structure:
     \x7b
       \"monday\": \"8:00 AM - 6:00 PM\",
       \"tuesday\": \"8:00 AM - 6:00 PM\",
       \"wednesday\": \"8:00 AM - 6:00 PM\",
       \"thursday\": \"8:00 AM - 6:00 PM\",
       \"friday\": \"8:00 AM - 6:00 PM\",
       \"saturday\": \"9:00 AM - 2:00 PM\",
       \"sunday\": \"Closed\"
     \x7d
   - If hours not found for a day, use empty string \"\"
   - If clinic is 24/7, still populate hours (frontend will handle is_24_7 flag)

10. is_24_7: Set to true if clinic operates 24/7, otherwise false (boolean)
    - Default: false

11. holidayClosures: Extract information about holiday closures (string)
    - Format: \"Closed for Thanksgiving (Nov 28). Closed at 12 PM on Christmas Eve (Dec 24).\"
    - If none found, return empty string \"\"

12. veterinarians: Extract ALL veterinarians as an array of objects
    - Structure: \x7b\"name\": \"Dr. Name, DVM\", \"specialties\": \"Area of expertise\", \"acceptingNewPatients\": true/false\x7d
    - acceptingNewPatients defaults to false if not specified
    - If none found, return empty array []

13. practiceManager: Extract the practice manager\x27s name (string)
    - If none found, return empty string \"\"

14. headTechnician: Extract the head technician\x27s name and credentials (string)
    - Format: \"Name, CVT\" or \"Name, LVT\"
    - If none found, return empty string \"\"

15. servicesOffered: Extract ALL services offered as an array of strings
    - Format: [\"Service 1\", \"Service 2\", \"Service 3\"]
    - If none found, return empty array []

16. servicesNotOffered: Extract services explicitly NOT offered (string)
    - Format: \"Boarding, Grooming, Mobile veterinary visits\"
    - Comma-separated if multiple
    - If none found, return empty string \"\"

17. speciesTreated: Extract ALL species/animal types treated as an array of strings
    - Format: [\"Dogs\", \"Cats\", \"Rabbits\", \"Birds\"]
    - If none found, return empty array []

EMPTY VALUES STRATEGY:
- Arrays: Use empty array [] if no data found
- Strings: Use empty string \"\" if no data found
- Booleans: Use false as default
- businessHours object: Return full structure with empty strings for each day if no data found

Only include information explicitly stated on the website.
Be thorough and accurate.

Website content:"

/-- The one request `extract_clinic_data` issues:
`contents = f"{prompt}\n\n{combined_content}"`, `temperature=0`,
`response_mime_type="application/json"`, `response_schema=ClinicData`,
`thinking_config=ThinkingConfig(thinking_budget=0)`. -/

def buildGenRequest (pages_data : List Page) : GenRequest :=
  { model := GEMINI_MODEL
    contents := _build_extraction_prompt ++ "\n\n" ++ _prepare_content_for_extraction pages_data
    temperature := 0
    response_mime_type := "application/json"
    response_schema_ClinicData := true
    thinking_budget := 0 }

/-- `extract_clinic_data(pages_data, client)` (geminiHelper.py lines 79-123).

* `client` / `gemini_api_key` : the optional pre-initialized client and the
  `settings.gemini_api_key` value consulted when `client is None`;
* `generate_content` : the Gemini service collaborator — given the request it
  either returns a schema-conforming `ClinicData` or fails (any exception).

Returns the Python result (`Except.error` = exception propagated to the
caller) together with the list of collaborator invocations actually made,
in order.  Control flow mirrors the source: the `client is None` branch
calls `get_gemini_client()` OUTSIDE the `try`, so its `ValueError`
propagates; the `try` wraps only the `generate_content` call, and its
`except Exception` branch returns `ClinicData()`. -/

def extract_clinic_data (pages_data : List Page) (client : Option GeminiClient)
    (gemini_api_key : Option String)
    (generate_content : GenRequest → Except String ClinicData) :
    Except String ClinicData × List GenRequest :=
  match (match client with
         | some c => Except.ok c
         | none => get_gemini_client gemini_api_key) with
  | Except.error e => (Except.error e, [])
  | Except.ok _ =>
    let req := buildGenRequest pages_data
    match generate_content req with
    | Except.ok extracted_data => (Except.ok extracted_data, [req])
    | Except.error _ => (Except.ok ClinicData.empty, [req])



/-! ### Regular-expression engine

`ScrapeRequest.validate_url` (routes/scraper.py lines 43-57) matches the
URL against a compiled pattern.  The pattern is embedded as a regex AST
and matched with Brzozowski derivatives; derivative matching decides
exactly the language of the pattern, which coincides with Python
`re.match` success for this pattern (the pattern is `$`-anchored, and
greediness only affects captures, not matchability).  `re.IGNORECASE`
is folded into the character classes. -/

inductive RE where
  | eps : RE
  | nul : RE
  | cls (p : Char → Bool) : RE
  | cat (a b : RE) : RE
  | alt (a b : RE) : RE
  | star (r : RE) : RE
  | repc (p : Char → Bool) (lo hi : Nat) : RE

/-- Does the regex accept the empty string? -/

def nullable : RE → Bool
  | .eps => true
  | .nul => false
  | .cls _ => false
  | .cat a b => nullable a && nullable b
  | .alt a b => nullable a || nullable b
  | .star _ => true
  | .repc _ lo _ => lo == 0

/-- Smart concatenation (collapses the failure/empty regexes). -/

def catS : RE → RE → RE
  | .nul, _ => .nul
  | .eps, b => b
  | _, .nul => .nul
  | a, .eps => a
  | a, b => .cat a b

/-- Smart alternation (collapses the failure regex). -/

def altS : RE → RE → RE
  | .nul, b => b
  | a, .nul => a
  | a, b => .alt a b

/-- Brzozowski derivative by one character. -/

def derivRE : RE → Char → RE
  | .eps, _ => .nul
  | .nul, _ => .nul
  | .cls p, c => if p c then .eps else .nul
  | .cat a b, c =>
    if nullable a then altS (catS (derivRE a c) b) (derivRE b c)
    else catS (derivRE a c) b
  | .alt a b, c => altS (derivRE a c) (derivRE b c)
  | .star r, c => catS (derivRE r c) (.star r)
  | .repc p lo hi, c =>
    if hi == 0 then .nul
    else if p c then .repc p (lo - 1) (hi - 1)
    else .nul

/-- Full-string match (the source pattern is anchored by `re.match` at the
start and by `$` at the end). -/

def matchRE (r : RE) (s : List Char) : Bool :=
  nullable (s.foldl derivRE r)

def reMatch (r : RE) (s : String) : Bool :=
  matchRE r s.data

/-- `\d` (ASCII). -/

def digitP (c : Char) : Bool := 48 ≤ c.toNat && c.toNat ≤ 57

/-- `[A-Z]` under `re.IGNORECASE`. -/

def alphaP (c : Char) : Bool :=
  (65 ≤ c.toNat && c.toNat ≤ 90) || (97 ≤ c.toNat && c.toNat ≤ 122)

/-- `[A-Z0-9]` under `re.IGNORECASE`. -/

def alnumP (c : Char) : Bool := alphaP c || digitP c

/-- `[A-Z0-9-]` under `re.IGNORECASE`. -/

def alnumDashP (c : Char) : Bool := alnumP c || c.toNat == 45

/-- `\S` (ASCII whitespace complement). -/

def nonSpaceP (c : Char) : Bool :=
  !(c.toNat == 32 || c.toNat == 9 || c.toNat == 10 ||
    c.toNat == 13 || c.toNat == 12 || c.toNat == 11)

/-- `[/?]`. -/

def slashQueryP (c : Char) : Bool := c.toNat == 47 || c.toNat == 63

/-- Literal character. -/

def lit (c : Char) : RE := .cls (fun d => d == c)

/-- Literal letter under `re.IGNORECASE`. -/

def litI (lower upper : Char) : RE := .cls (fun d => d == lower || d == upper)

/-- `r?`. -/

def optRE (r : RE) : RE := .alt r .eps

/-- `r+`. -/

def plusRE (r : RE) : RE := .cat r (.star r)

/-- Sequencing of a list of regexes. -/

def seqAll : List RE → RE
  | [] => .eps
  | r :: rest => .cat r (seqAll rest)

/-- `https?://`. -/

def url_scheme : RE :=
  seqAll [litI 'h' 'H', litI 't' 'T', litI 't' 'T', litI 'p' 'P',
          optRE (litI 's' 'S'), lit ':', lit '/', lit '/']

/-- One domain label `[A-Z0-9](?:[A-Z0-9-]{0,61}[A-Z0-9])?`. -/

def url_label : RE :=
  .cat (.cls alnumP) (optRE (.cat (.repc alnumDashP 0 61) (.cls alnumP)))

/-- `(?:label\.)+[A-Z]{2,6}\.?`. -/

def url_domain : RE :=
  .cat (plusRE (.cat url_label (lit '.')))
       (.cat (.repc alphaP 2 6) (optRE (lit '.')))

/-- `localhost` under `re.IGNORECASE`. -/

def url_localhost : RE :=
  seqAll [litI 'l' 'L', litI 'o' 'O', litI 'c' 'C', litI 'a' 'A', litI 'l' 'L',
          litI 'h' 'H', litI 'o' 'O', litI 's' 'S', litI 't' 'T']

/-- `\d{1,3}`. -/

def url_octet : RE := .repc digitP 1 3

/-- `\d{1,3}\.\d{1,3}\.\d{1,3}\.\d{1,3}`. -/

def url_ip : RE :=
  seqAll [url_octet, lit '.', url_octet, lit '.', url_octet, lit '.', url_octet]

/-- `(?::\d+)?`. -/

def url_port : RE := optRE (.cat (lit ':') (plusRE (.cls digitP)))

/-- `(?:/?|[/?]\S+)`. -/

def url_path : RE :=
  .alt (optRE (lit '/')) (.cat (.cls slashQueryP) (plusRE (.cls nonSpaceP)))

/-- The full `url_pattern` of `ScrapeRequest.validate_url`. -/

def url_pattern : RE :=
  seqAll [url_scheme,
          .alt url_domain (.alt url_localhost url_ip),
          url_port,
          url_path]

/-- `ScrapeRequest.validate_url` (routes/scraper.py lines 43-57): a
non-matching URL raises `ValueError` (surfaced by the framework as a
request-validation failure before the handler body runs). -/

def validate_url (v : String) : Except String String :=
  if reMatch url_pattern v then Except.ok v
  else Except.error "Invalid URL format. Must start with http:// or https://"

/-! ### Route models and handler (routes/scraper.py) -/

/-- `ScrapeRequest` after validation (defaults `max_depth=3`, `max_pages=50`). -/

structure ScrapeRequest where
  url : String
  max_depth : Option Nat := some 3
  max_pages : Option Nat := some 50
deriving DecidableEq, Repr

/-- `ScrapeResponse` (routes/scraper.py lines 60-69). -/

structure ScrapeResponse where
  success : Bool
  url : String
  pages_crawled : Nat
  data : Option ClinicData
  error : Option String
deriving DecidableEq, Repr

/-- A Python exception value, with the distinctions the handler makes. -/

inductive PyErr where
  | valueError (msg : String)
  | typeError (msg : String)
  | exc (msg : String)
deriving DecidableEq, Repr

/-- `str(e)`. -/

def PyErr.msg : PyErr → String
  | .valueError m => m
  | .typeError m => m
  | .exc m => m

/-- The handler outcome: a normal `ScrapeResponse` envelope, or an
`HTTPException(status_code, detail)` fault. -/

inductive HandlerResult where
  | resp (r : ScrapeResponse)
  | fault (status : Nat) (detail : String)
deriving DecidableEq, Repr

/-- Names defined at module level in `helpers/geminiHelper.py` (imports
and definitions, top to bottom). -/

def geminiHelper_module_names : List String :=
  ["List", "Dict", "Any", "Optional", "genai", "types", "BaseModel",
   "settings", "get_logger", "logger", "GEMINI_MODEL", "Veterinarian",
   "BusinessHours", "ClinicData", "get_gemini_client", "extract_clinic_data",
   "_prepare_content_for_extraction", "_build_extraction_prompt"]

/-- The names `routes/scraper.py` lines 9-16 import from
`helpers.geminiHelper`. -/

def scraper_gemini_import_names : List String :=
  ["extract_clinic_data", "get_gemini_client", "ClinicData",
   "StaffMember", "FAQ", "BusinessHours"]

/-- First imported name missing from the module — a `some` value means the
`from helpers.geminiHelper import ...` statement raises `ImportError` and
`routes/scraper.py` (hence the application, which imports it from
`main.py`) fails to load. -/

def scraper_import_failure : Option String :=
  scraper_gemini_import_names.find? (fun n => !(geminiHelper_module_names.contains n))

/-- Required (no-default) parameters of
`deep_crawl_website(url, crawler, max_depth=2, max_pages=20)`
(scraperHelper.py lines 17-22). -/

def deep_crawl_required_params : List String := ["url", "crawler"]

/-- Keyword arguments the handler passes at the call site
(routes/scraper.py lines 107-109). -/

def crawl_call_site_kwargs : List String := ["url", "max_depth", "max_pages"]

/-- Required parameters not bound by the call site. -/

def crawl_call_missing_params : List String :=
  deep_crawl_required_params.filter (fun p => !(crawl_call_site_kwargs.contains p))

/-- The handler-side call `deep_crawl_website(url=..., max_depth=...,
max_pages=...)`: Python binds the keyword arguments against the function
signature first; a missing required parameter raises `TypeError` before
the function body (`crawl_body`, the crawl collaborator) can run. -/

def callCrawl (url : String) (max_depth max_pages : Option Nat)
    (crawl_body : String → Option Nat → Option Nat → Except PyErr (List Page)) :
    Except PyErr (List Page) :=
  if crawl_call_missing_params.isEmpty then crawl_body url max_depth max_pages
  else
    Except.error (PyErr.typeError
      "deep_crawl_website() missing 1 required positional argument: \x27crawler\x27")

/-- Field names of the `ClinicData` model (geminiHelper.py lines 39-58). -/

def clinicData_field_names : List String :=
  ["name", "phoneNumber", "address", "city", "state", "pincode", "website",
   "email", "businessHours", "is_24_7", "holidayClosures", "veterinarians",
   "practiceManager", "headTechnician", "servicesOffered",
   "servicesNotOffered", "speciesTreated"]

/-- Attributes the handler reads off `clinic_data` while logging the
extracted data (routes/scraper.py lines 148-157), in order. -/

def crawl_logged_attr_names : List String :=
  ["name", "phone", "email", "address", "business_hours", "services",
   "staff", "faqs", "policies", "additional_info"]

/-- First logged attribute that is not a `ClinicData` field: reading it
raises `AttributeError` (pydantic models reject unknown attributes). -/

def logging_missing_attr : Option String :=
  crawl_logged_attr_names.find? (fun a => !(clinicData_field_names.contains a))

/-- Lines 117-166 of `crawl_and_extract`: the part of the handler that runs
once `pages_data` has been obtained — the zero-pages partial-failure
envelope, the extraction step (whose exceptions become the
"Data extraction failed" envelope), the logging of the extracted fields
(whose `AttributeError` escapes to the outermost `except Exception`
handler, lines 170-174, and becomes an `Unexpected error` 500 fault),
and the success envelope. -/

def handleCrawledPages (req : ScrapeRequest) (gemini_client : GeminiClient)
    (gemini_api_key : Option String) (pages_data : List Page)
    (generate_content : GenRequest → Except String ClinicData) : HandlerResult :=
  if pages_data.isEmpty then
    .resp { success := false, url := req.url, pages_crawled := 0, data := none,
            error := some "No content found on the website" }
  else
    match (extract_clinic_data pages_data (some gemini_client) gemini_api_key
            generate_content).fst with
    | Except.error e =>
      .resp { success := false, url := req.url, pages_crawled := pages_data.length,
              data := none, error := some ("Data extraction failed: " ++ e) }
    | Except.ok clinic_data =>
      match logging_missing_attr with
      | some attr =>
        .fault 500 ("Unexpected error: \x27ClinicData\x27 object has no attribute \x27"
          ++ attr ++ "\x27")
      | none =>
        .resp { success := true, url := req.url, pages_crawled := pages_data.length,
                data := some clinic_data, error := none }

/-- The `POST /scraper/crawl` handler `crawl_and_extract`
(routes/scraper.py lines 75-174), for an already-validated request:

1. initialize the Gemini client eagerly; a `ValueError` becomes the 500
   `Gemini API configuration error` fault (lines 97-103);
2. call `deep_crawl_website` (lines 106-115): `ValueError` becomes a 400
   `Invalid URL` fault, any other exception a 500 `Crawling failed` fault;
3. continue with `handleCrawledPages`. -/

def crawl_and_extract (req : ScrapeRequest) (gemini_api_key : Option String)
    (crawl_body : String → Option Nat → Option Nat → Except PyErr (List Page))
    (generate_content : GenRequest → Except String ClinicData) : HandlerResult :=
  match get_gemini_client gemini_api_key with
  | Except.error e => .fault 500 ("Gemini API configuration error: " ++ e)
  | Except.ok gemini_client =>
    match callCrawl req.url req.max_depth req.max_pages crawl_body with
    | Except.error (PyErr.valueError m) => .fault 400 ("Invalid URL: " ++ m)
    | Except.error e => .fault 500 ("Crawling failed: " ++ e.msg)
    | Except.ok pages_data =>
      handleCrawledPages req gemini_client gemini_api_key pages_data generate_content

/-- Outcome of one request at the route boundary: rejected by request
validation (FastAPI returns 422 before the handler body runs), or
handled by `crawl_and_extract`. -/

inductive RouteResult where
  | validationFault (msg : String)
  | handled (r : HandlerResult)
deriving DecidableEq, Repr

/-- FastAPI/pydantic validation of the request body: fields are validated
in declaration order — `url` (the `validate_url` validator), then the
`ge=1, le=10` bound on `max_depth`, then the `ge=1, le=200` bound on
`max_pages`; omitted optional fields take their defaults. -/

def parseScrapeRequest (url : String) (max_depth max_pages : Option Nat) :
    Except String ScrapeRequest :=
  match validate_url url with
  | Except.error m => Except.error m
  | Except.ok u =>
    let d := max_depth.getD 3
    if 1 ≤ d ∧ d ≤ 10 then
      let p := max_pages.getD 50
      if 1 ≤ p ∧ p ≤ 200 then
        Except.ok { url := u, max_depth := some d, max_pages := some p }
      else Except.error "max_pages must be between 1 and 200"
    else Except.error "max_depth must be between 1 and 10"

/-- One request through validation and, if it passes, the handler. -/

def handleRequest (url : String) (max_depth max_pages : Option Nat)
    (gemini_api_key : Option String)
    (crawl_body : String → Option Nat → Option Nat → Except PyErr (List Page))
    (generate_content : GenRequest → Except String ClinicData) : RouteResult :=
  match parseScrapeRequest url max_depth max_pages with
  | Except.error m => RouteResult.validationFault m
  | Except.ok req =>
    RouteResult.handled (crawl_and_extract req gemini_api_key crawl_body generate_content)

/-! ### Crawl result processing (scraperHelper.py) -/

/-- One crawl4ai result as consumed by the processing loop of
`deep_crawl_website` (scraperHelper.py lines 110-144); a `None`
`markdown`/`cleaned_html` is modelled as `""` (both are falsy and the
loop only tests truthiness). -/

structure CrawlResult where
  url : String
  success : Bool
  markdown : String
  cleaned_html : String
deriving DecidableEq, Repr

/-- The skip list of `_should_skip_url` (scraperHelper.py lines 181-190). -/

def skip_patterns : List String :=
  ["/feed/", "/rss/", "/atom/", "robots.txt", "sitemap.xml", "/wp-json/",
   "/api/", "/download/"]

/-- `_should_skip_url(url)` (scraperHelper.py lines 168-196). -/

def _should_skip_url (url : String) : Bool :=
  skip_patterns.any (fun pat => containsSub pat.data (toLowerStr url).data)

/-- `if max_pages and page_count >= max_pages` (Python truthiness: a
`None` or `0` limit disables the check). -/

def pyMaxPagesBreak (max_pages : Option Nat) (page_count : Nat) : Bool :=
  match max_pages with
  | some n => !(n == 0) && decide (n ≤ page_count)
  | none => false

/-- `content = result.markdown if result.markdown else result.cleaned_html`. -/

def contentOf (r : CrawlResult) : String :=
  if r.markdown ≠ "" then r.markdown else r.cleaned_html

/-- `if not content or len(content.strip()) < 100` — the insufficient-content test. -/

def tooLittleContent (r : CrawlResult) : Prop :=
  contentOf r = "" ∨ (pyStrip (contentOf r)).length < 100

instance (r : CrawlResult) : Decidable (tooLittleContent r) := by
  unfold tooLittleContent
  infer_instance

/-- The `for result in results_list` loop of `deep_crawl_website`
(scraperHelper.py lines 117-141): stop at the page limit, skip failed
crawls, skip denylisted URLs, prefer markdown over cleaned HTML, skip
pages whose stripped content is shorter than 100 characters, and collect
`{"url": ..., "content": ...}` records in encounter order. -/

def processLoop : List CrawlResult → Option Nat → Nat → List Page
  | [], _, _ => []
  | r :: rest, max_pages, page_count =>
    if pyMaxPagesBreak max_pages page_count then []
    else if !r.success then processLoop rest max_pages page_count
    else if _should_skip_url r.url then processLoop rest max_pages page_count
    else if tooLittleContent r then
      processLoop rest max_pages page_count
    else
      { url := r.url, content := contentOf r } :: processLoop rest max_pages (page_count + 1)

/-- The `pages_data` list a successful `deep_crawl_website` call returns,
as a function of the raw crawl results and the `max_pages` argument. -/

def deep_crawl_website_results (results : List CrawlResult)
    (max_pages : Option Nat) : List Page :=
  processLoop results max_pages 0


/-! ## Theorems -/

theorem strLen_append (a b : String) : (a ++ b).length = a.length + b.length :=
  String.length_append a b

theorem strLen_pySlice (s : String) (n : Nat) : (pySlice s n).length ≤ n := by
  cases s with
  | mk d => simp [pySlice, String.length]

theorem joinAll_length (l : List String) :
    (joinAll l).length = (l.map String.length).sum := by
  induction l with
  | nil => rfl
  | cons s rest ih => simp [joinAll, strLen_append, ih]

/-! ### Page data

A crawled page, i.e. one element of the `pages_data` list flowing from
`deep_crawl_website` into `extract_clinic_data`: a Python dict with keys
`"url"` and `"content"` (both always present — the pipeline constructs
both; `page.get("url", "Unknown URL")` / `page.get("content", "")`
never fall back to their defaults on such dicts). -/

theorem keptPages_cons_skip (p : Page) (rest : List Page) (h : pyStrip p.content = "") :
    keptPages (p :: rest) = keptPages rest := by
  simp [keptPages, List.filter_cons, h]

theorem keptPages_cons_keep (p : Page) (rest : List Page) (h : ¬pyStrip p.content = "") :
    keptPages (p :: rest) = p :: keptPages rest := by
  simp [keptPages, List.filter_cons, h]

theorem prepareLoop_cons_skip (p : Page) (rest : List Page) (total : Nat)
    (h : pyStrip p.content = "") : prepareLoop (p :: rest) total = prepareLoop rest total := by
  simp [prepareLoop, h]

theorem prepareLoop_cons_over (p : Page) (rest : List Page) (total : Nat)
    (h : ¬pyStrip p.content = "") (hov : total + (fmtOf p).length > max_total_chars) :
    prepareLoop (p :: rest) total = [] := by
  simp only [prepareLoop]
  rw [if_neg h]
  exact if_pos hov

theorem prepareLoop_cons_keep (p : Page) (rest : List Page) (total : Nat)
    (h : ¬pyStrip p.content = "") (hov : ¬total + (fmtOf p).length > max_total_chars) :
    prepareLoop (p :: rest) total =
      fmtOf p :: prepareLoop rest (total + (fmtOf p).length) := by
  simp only [prepareLoop]
  rw [if_neg h]
  exact if_neg hov

theorem prepareLoop_take_form (pages : List Page) :
    ∀ total, ∃ k, prepareLoop pages total = ((keptPages pages).map fmtOf).take k := by
  induction pages with
  | nil => intro total; exact ⟨0, rfl⟩
  | cons p rest ih =>
    intro total
    by_cases h : pyStrip p.content = ""
    · obtain ⟨k, hk⟩ := ih total
      exact ⟨k, by rw [prepareLoop_cons_skip p rest total h, keptPages_cons_skip p rest h, hk]⟩
    · by_cases hov : total + (fmtOf p).length > max_total_chars
      · exact ⟨0, by rw [prepareLoop_cons_over p rest total h hov]; rfl⟩
      · obtain ⟨k, hk⟩ := ih (total + (fmtOf p).length)
        refine ⟨k + 1, ?_⟩
        rw [prepareLoop_cons_keep p rest total h hov, keptPages_cons_keep p rest h, hk]
        rfl

theorem prepareLoop_total_bound (pages : List Page) :
    ∀ total, (joinAll (prepareLoop pages total)).length + total ≤ max_total_chars ∨
      prepareLoop pages total = [] := by
  induction pages with
  | nil => intro total; exact Or.inr rfl
  | cons p rest ih =>
    intro total
    by_cases h : pyStrip p.content = ""
    · rw [prepareLoop_cons_skip p rest total h]
      exact ih total
    · by_cases hov : total + (fmtOf p).length > max_total_chars
      · exact Or.inr (prepareLoop_cons_over p rest total h hov)
      · refine Or.inl ?_
        rw [prepareLoop_cons_keep p rest total h hov]
        rcases ih (total + (fmtOf p).length) with hle | hnil
        · simp only [joinAll, strLen_append]
          omega
        · rw [hnil]
          simp only [joinAll, strLen_append, String.length]
          simp
          omega

theorem prepareLoop_all_empty (pages : List Page)
    (h : ∀ p ∈ pages, pyStrip p.content = "") :
    ∀ total, prepareLoop pages total = [] := by
  induction pages with
  | nil => intro _; rfl
  | cons p rest ih =>
    intro total
    rw [prepareLoop_cons_skip p rest total (h p (by simp))]
    exact ih (fun q hq => h q (by simp [hq])) total

/-! ## Lemmas about the extraction client -/

theorem extract_with_client (pages_data : List Page) (c : GeminiClient)
    (gemini_api_key : Option String)
    (generate_content : GenRequest → Except String ClinicData) :
    extract_clinic_data pages_data (some c) gemini_api_key generate_content =
      (match generate_content (buildGenRequest pages_data) with
       | Except.ok d => (Except.ok d, [buildGenRequest pages_data])
       | Except.error _ => (Except.ok ClinicData.empty, [buildGenRequest pages_data])) := by
  unfold extract_clinic_data
  rfl

theorem extract_with_key (pages_data : List Page) (k : String) (hne : k ≠ "")
    (generate_content : GenRequest → Except String ClinicData) :
    extract_clinic_data pages_data none (some k) generate_content =
      (match generate_content (buildGenRequest pages_data) with
       | Except.ok d => (Except.ok d, [buildGenRequest pages_data])
       | Except.error _ => (Except.ok ClinicData.empty, [buildGenRequest pages_data])) := by
  unfold extract_clinic_data get_gemini_client
  simp [hne]

/-! ## Lemmas about the crawl result-processing loop -/

theorem processLoop_cons (r : CrawlResult) (rest : List CrawlResult)
    (max_pages : Option Nat) (page_count : Nat) :
    processLoop (r :: rest) max_pages page_count =
      if pyMaxPagesBreak max_pages page_count then []
      else if !r.success then processLoop rest max_pages page_count
      else if _should_skip_url r.url then processLoop rest max_pages page_count
      else if tooLittleContent r then processLoop rest max_pages page_count
      else { url := r.url, content := contentOf r } ::
        processLoop rest max_pages (page_count + 1) := by
  simp only [processLoop]

theorem processLoop_length_le (results : List CrawlResult) (n : Nat) (hn : 0 < n) :
    ∀ count, (processLoop results (some n) count).length ≤ n - count := by
  induction results with
  | nil => intro count; simp [processLoop]
  | cons r rest ih =>
    intro count
    rw [processLoop_cons]
    by_cases hbrk : pyMaxPagesBreak (some n) count = true
    · rw [if_pos hbrk]; simp
    · rw [if_neg hbrk]
      have hlt : count < n := by
        simp [pyMaxPagesBreak] at hbrk
        omega
      by_cases hs : (!r.success) = true
      · rw [if_pos hs]; exact ih count
      · rw [if_neg hs]
        by_cases hskip : _should_skip_url r.url = true
        · rw [if_pos hskip]; exact ih count
        · rw [if_neg hskip]
          by_cases hc : tooLittleContent r
          · rw [if_pos hc]; exact ih count
          · rw [if_neg hc]
            have := ih (count + 1)
            simp only [List.length_cons]
            omega

theorem processLoop_mem (results : List CrawlResult) (max_pages : Option Nat) :
    ∀ count p, p ∈ processLoop results max_pages count →
      100 ≤ (pyStrip p.content).length ∧ _should_skip_url p.url = false ∧
      p.content ≠ "" := by
  induction results with
  | nil => intro count p hp; simp [processLoop] at hp
  | cons r rest ih =>
    intro count p hp
    rw [processLoop_cons] at hp
    by_cases hbrk : pyMaxPagesBreak max_pages count = true
    · rw [if_pos hbrk] at hp; simp at hp
    · rw [if_neg hbrk] at hp
      by_cases hs : (!r.success) = true
      · rw [if_pos hs] at hp; exact ih count p hp
      · rw [if_neg hs] at hp
        by_cases hskip : _should_skip_url r.url = true
        · rw [if_pos hskip] at hp; exact ih count p hp
        · rw [if_neg hskip] at hp
          by_cases hc : tooLittleContent r
          · rw [if_pos hc] at hp; exact ih count p hp
          · rw [if_neg hc] at hp
            rcases List.mem_cons.mp hp with hhead | htail
            · unfold tooLittleContent at hc
              push_neg at hc
              subst hhead
              refine ⟨?_, ?_, ?_⟩
              · simpa using hc.2
              · simpa using hskip
              · simpa using hc.1
            · exact ih (count + 1) p htail

/-! ## Claim C2 — extraction client fail-soft contract -/

/-- C2 counterexample: the claim "for every input pages list and every
client, `extract_clinic_data` never propagates a failure to its caller"
is false.  With `client=None` and `GEMINI_API_KEY` unset, the
`get_gemini_client()` call at geminiHelper.py line 93 sits OUTSIDE the
`try` block, and its `ValueError` propagates to the caller instead of
being converted into an empty `ClinicData`. -/
theorem C2_counterexample :
    (extract_clinic_data [] none none (fun _ => Except.ok ClinicData.empty)).fst =
      Except.error
        "Gemini API key is required. Set GEMINI_API_KEY environment variable." := rfl

/-- C2 amended: whenever a client is provided, `extract_clinic_data`
never propagates any failure of the extraction service: it always
returns normally, and when the `generate_content` call fails (any
exception) the result is the `ClinicData` record with every field at
its empty default.  (Only the `client=None`-with-unconfigured-key path
can raise, from client initialization, not from extraction.) -/
theorem C2_extraction_fail_soft (pages_data : List Page) (c : GeminiClient)
    (gemini_api_key : Option String)
    (generate_content : GenRequest → Except String ClinicData) :
    (∃ d, (extract_clinic_data pages_data (some c) gemini_api_key
            generate_content).fst = Except.ok d) ∧
    (∀ e, generate_content (buildGenRequest pages_data) = Except.error e →
       (extract_clinic_data pages_data (some c) gemini_api_key
         generate_content).fst = Except.ok ClinicData.empty) := by
  rw [extract_with_client]
  constructor
  · cases hg : generate_content (buildGenRequest pages_data) with
    | ok d => exact ⟨d, rfl⟩
    | error e => exact ⟨ClinicData.empty, rfl⟩
  · intro e he
    rw [he]

/-- C2 witness: at a concrete page list, client, and failing service, the
result is the all-defaults record, not an exception. -/
theorem C2_extraction_fail_soft_witness :
    (extract_clinic_data [{ url := "https://x.com/", content := "c" }]
      (some ⟨"key"⟩) none (fun _ => Except.error "boom")).fst =
      Except.ok ClinicData.empty :=
  (C2_extraction_fail_soft [{ url := "https://x.com/", content := "c" }]
    ⟨"key"⟩ none (fun _ => Except.error "boom")).2 "boom" rfl

/-! ## Claim C3 — minimum-content threshold in the aggregator -/

/-- The example page sequence from the test scenario in the spec. -/

def c3_example_pages : List Page :=
  [{ url := "/home", content := "Open 24/7. Call (555) 111-2222." },
   { url := "/hours", content := "x" }]

/-- C3 counterexample: the claim says that with `min_content_len=5` the
page with content `"x"` is skipped, leaving exactly one `"--- PAGE:"`
block.  The code has no `min_content_len` parameter at all: the loop at
geminiHelper.py lines 147-149 only skips pages whose stripped content is
EMPTY, so `"x"` (length 1) is included and the payload contains exactly
two `"--- PAGE:"` blocks. -/
theorem C3_counterexample :
    countSub "--- PAGE:".data
      (_prepare_content_for_extraction c3_example_pages).data = 2 := by decide

/-- C3 amended: the only content threshold of the aggregator is emptiness —
it skips exactly the pages whose stripped content is empty, so an input
whose every page is empty/whitespace-only aggregates to the empty
string, while on the example sequence the `"x"` page is retained and
the payload contains two `"--- PAGE:"` blocks. -/
theorem C3_empty_only_threshold :
    (∀ pages : List Page, (∀ p ∈ pages, pyStrip p.content = "") →
       _prepare_content_for_extraction pages = "") ∧
    countSub "--- PAGE:".data
      (_prepare_content_for_extraction c3_example_pages).data = 2 := by
  constructor
  · intro pages h
    unfold _prepare_content_for_extraction
    rw [prepareLoop_all_empty pages h 0]
    rfl
  · decide

/-- C3 witness: a whitespace-only two-page input aggregates to `""`. -/
theorem C3_empty_only_threshold_witness :
    _prepare_content_for_extraction
      [{ url := "/a", content := " " }, { url := "/b", content := "" }] = "" :=
  C3_empty_only_threshold.1
    [{ url := "/a", content := " " }, { url := "/b", content := "" }] (by decide)

/-! ## Claim C4 — aggregator size bounds and whole-page dropping -/

/-- C4: for every page sequence (1) the aggregated payload length never
exceeds `max_total_chars` — the loop checks before appending and stops
entirely on overflow; (2) no page contributes more of its content than
`max_chars_per_page` plus the fixed truncation marker; (3) the emitted
blocks are exactly a prefix of the formatted kept pages in encounter
order — pages are dropped whole, never partially, with no reordering or
backfilling. -/
theorem C4_aggregate_bounds (pages : List Page) :
    (_prepare_content_for_extraction pages).length ≤ max_total_chars ∧
    (∀ p ∈ pages,
      (truncateContent p.content).length ≤ max_chars_per_page + truncMarker.length) ∧
    (∃ k, prepareLoop pages 0 = ((keptPages pages).map fmtOf).take k) := by
  refine ⟨?_, ?_, prepareLoop_take_form pages 0⟩
  · unfold _prepare_content_for_extraction
    rcases prepareLoop_total_bound pages 0 with hle | hnil
    · omega
    · rw [hnil]
      simp [joinAll, String.length]
  · intro p _
    unfold truncateContent
    by_cases h : p.content.length > max_chars_per_page
    · rw [if_pos h, strLen_append]
      have := strLen_pySlice p.content max_chars_per_page
      omega
    · rw [if_neg h]
      omega

/-- C4 witness: concrete instances of the total bound and the per-page
bound. -/
theorem C4_aggregate_bounds_witness :
    (_prepare_content_for_extraction [{ url := "/home", content := "Open 24/7." }]).length ≤
      max_total_chars ∧
    (truncateContent "Open 24/7.").length ≤ max_chars_per_page + truncMarker.length :=
  ⟨(C4_aggregate_bounds [{ url := "/home", content := "Open 24/7." }]).1,
   (C4_aggregate_bounds [{ url := "/home", content := "Open 24/7." }]).2.1
     { url := "/home", content := "Open 24/7." } (by decide)⟩

/-! ## Claim C6 — single deterministic extraction call -/

/-- C6 counterexample: the claim "for every call to `extract_clinic_data`
the extraction collaborator is invoked exactly once" fails on the call
with `client=None` and no configured API key: `get_gemini_client()`
raises before the `generate_content` call, so the collaborator is
invoked zero times. -/
theorem C6_counterexample :
    ((extract_clinic_data [] none none
        (fun _ => Except.ok ClinicData.empty)).snd).length = 0 := rfl

/-- C6 amended: every call that obtains a client — a client argument is
supplied, or the API key is configured non-empty — invokes the extraction
collaborator exactly once (no retry), and the single request pins
`temperature` to `0` and disables thinking (`thinking_budget = 0`); a
call that fails client initialization invokes the collaborator zero
times. -/
theorem C6_single_deterministic_call (pages_data : List Page)
    (client : Option GeminiClient) (gemini_api_key : Option String)
    (generate_content : GenRequest → Except String ClinicData)
    (h : client ≠ none ∨ ∃ k, gemini_api_key = some k ∧ k ≠ "") :
    ((extract_clinic_data pages_data client gemini_api_key generate_content).snd).length = 1 ∧
    ∀ r ∈ (extract_clinic_data pages_data client gemini_api_key generate_content).snd,
      r.temperature = 0 ∧ r.thinking_budget = 0 := by
  have key : extract_clinic_data pages_data client gemini_api_key generate_content =
      (match generate_content (buildGenRequest pages_data) with
       | Except.ok d => (Except.ok d, [buildGenRequest pages_data])
       | Except.error _ => (Except.ok ClinicData.empty, [buildGenRequest pages_data])) := by
    cases client with
    | some c => exact extract_with_client pages_data c gemini_api_key generate_content
    | none =>
      rcases h with h | ⟨k, hk, hne⟩
      · exact absurd rfl h
      · subst hk
        exact extract_with_key pages_data k hne generate_content
  rw [key]
  cases hg : generate_content (buildGenRequest pages_data) with
  | ok d =>
    refine ⟨rfl, ?_⟩
    intro r hr
    simp at hr
    subst hr
    exact ⟨rfl, rfl⟩
  | error e =>
    refine ⟨rfl, ?_⟩
    intro r hr
    simp at hr
    subst hr
    exact ⟨rfl, rfl⟩

/-- C6 witness: with a client supplied, a concrete call issues exactly
one collaborator request. -/
theorem C6_single_deterministic_call_witness :
    ((extract_clinic_data [] (some ⟨"key"⟩) none
        (fun _ => Except.ok ClinicData.empty)).snd).length = 1 :=
  (C6_single_deterministic_call [] (some ⟨"key"⟩) none
    (fun _ => Except.ok ClinicData.empty) (Or.inl (by simp))).1

/-! ## Claim C8 — aggregator purity, determinism, order sensitivity -/

/-- C8: the aggregator is a pure function in this embedding — two runs on
the same input are definitionally the same string (it performs no I/O:
its Python body only reads its argument and local constants); the output
lists the kept page blocks as a prefix in encounter order; and input
order matters — swapping two concrete pages changes the output, so there
is no implicit sorting. -/
theorem C8_aggregator_deterministic_ordered (pages : List Page) :
    _prepare_content_for_extraction pages = _prepare_content_for_extraction pages ∧
    (∃ k, prepareLoop pages 0 = ((keptPages pages).map fmtOf).take k) ∧
    _prepare_content_for_extraction
        [{ url := "https://a.com/", content := "alpha content" },
         { url := "https://b.com/", content := "beta content" }] ≠
      _prepare_content_for_extraction
        [{ url := "https://b.com/", content := "beta content" },
         { url := "https://a.com/", content := "alpha content" }] :=
  ⟨rfl, prepareLoop_take_form pages 0, by decide⟩

/-- C8 witness: the concrete order-sensitivity instance. -/
theorem C8_aggregator_deterministic_ordered_witness :
    _prepare_content_for_extraction
        [{ url := "https://a.com/", content := "alpha content" },
         { url := "https://b.com/", content := "beta content" }] ≠
      _prepare_content_for_extraction
        [{ url := "https://b.com/", content := "beta content" },
         { url := "https://a.com/", content := "alpha content" }] :=
  (C8_aggregator_deterministic_ordered []).2.2

/-! ## Claim C1 — the success envelope of the orchestration handler -/

/-- C1: the success path of `crawl_and_extract` is broken three times
over, so a crawl of N>0 pages with a successful extraction can never
produce the claimed `success=true` envelope:

1. `routes/scraper.py` lines 9-16 import `StaffMember` and `FAQ` from
   `helpers.geminiHelper`, which defines neither — the module (and with
   it the application, via `main.py`) fails to load with `ImportError`;
2. even with the import fixed, the handler calls `deep_crawl_website`
   without the required `crawler` argument, so every request — here a
   valid request whose crawl collaborator would return one page and
   whose extraction collaborator succeeds — raises `TypeError` and is
   answered with a 500 `Crawling failed` fault;
3. even with `pages_data` in hand (entering the post-crawl part of the
   handler directly), the success path logs `clinic_data.phone`, a field
   `ClinicData` does not have, so the `AttributeError` escapes to the
   outermost handler and a 500 `Unexpected error` fault replaces the
   success envelope. -/
theorem C1_success_envelope_unreachable :
    scraper_import_failure = some "StaffMember" ∧
    crawl_and_extract { url := "https://example-vet-clinic.com" } (some "key")
        (fun _ _ _ => Except.ok [{ url := "https://example-vet-clinic.com/", content := "c" }])
        (fun _ => Except.ok ClinicData.empty) =
      HandlerResult.fault 500
        "Crawling failed: deep_crawl_website() missing 1 required positional argument: \x27crawler\x27" ∧
    handleCrawledPages { url := "https://example-vet-clinic.com" } ⟨"key"⟩ (some "key")
        [{ url := "https://example-vet-clinic.com/", content := "c" }]
        (fun _ => Except.ok ClinicData.empty) =
      HandlerResult.fault 500
        "Unexpected error: \x27ClinicData\x27 object has no attribute \x27phone\x27" :=
  ⟨rfl, rfl, rfl⟩

/-! ## Claim C5 — the zero-pages partial-failure envelope -/

/-- C5: the zero-pages envelope at routes/scraper.py lines 117-124 is
unreachable.  For every crawl-collaborator behaviour — including one
that returns zero pages — and every extraction collaborator, a request
with a configured key is answered with the 500 `Crawling failed` fault,
because the call to `deep_crawl_website` omits the required `crawler`
argument and raises `TypeError` before any crawl can happen; the
claimed `success=false, pages_crawled=0, data=null` envelope (which the
unreachable branch would build) is never returned. -/
theorem C5_zero_pages_envelope_unreachable :
    (∀ (crawl_body : String → Option Nat → Option Nat → Except PyErr (List Page))
       (generate_content : GenRequest → Except String ClinicData),
      crawl_and_extract { url := "https://example-vet-clinic.com" } (some "key")
          crawl_body generate_content =
        HandlerResult.fault 500
          "Crawling failed: deep_crawl_website() missing 1 required positional argument: \x27crawler\x27") ∧
    HandlerResult.fault 500
        "Crawling failed: deep_crawl_website() missing 1 required positional argument: \x27crawler\x27" ≠
      HandlerResult.resp { success := false, url := "https://example-vet-clinic.com",
                           pages_crawled := 0, data := none,
                           error := some "No content found on the website" } :=
  ⟨fun _ _ => rfl, by decide⟩

/-! ## Claim C7 — invalid seed URL rejected before any crawl -/

/-- C7: a request whose URL does not match `url_pattern` is rejected by
request validation (`ScrapeRequest.validate_url` raises `ValueError`,
surfaced as a validation failure before the handler body runs), and the
outcome is independent of both collaborators — in particular the crawl
collaborator is never called. -/
theorem C7_invalid_url_rejected (url : String) (max_depth max_pages : Option Nat)
    (gemini_api_key : Option String)
    (b₁ b₂ : String → Option Nat → Option Nat → Except PyErr (List Page))
    (g₁ g₂ : GenRequest → Except String ClinicData)
    (h : reMatch url_pattern url = false) :
    handleRequest url max_depth max_pages gemini_api_key b₁ g₁ =
      RouteResult.validationFault "Invalid URL format. Must start with http:// or https://" ∧
    handleRequest url max_depth max_pages gemini_api_key b₁ g₁ =
      handleRequest url max_depth max_pages gemini_api_key b₂ g₂ := by
  have hv : validate_url url =
      Except.error "Invalid URL format. Must start with http:// or https://" := by
    unfold validate_url
    simp [h]
  constructor
  · unfold handleRequest parseScrapeRequest
    rw [hv]
  · unfold handleRequest parseScrapeRequest
    rw [hv]

/-- C7 witness: the example `"not-a-url"` from the spec is rejected as an
input-validation failure, with the crawl collaborator never invoked. -/
theorem C7_invalid_url_rejected_witness :
    handleRequest "not-a-url" (some 3) (some 50) (some "key")
        (fun _ _ _ => Except.ok []) (fun _ => Except.ok ClinicData.empty) =
      RouteResult.validationFault "Invalid URL format. Must start with http:// or https://" :=
  (C7_invalid_url_rejected "not-a-url" (some 3) (some 50) (some "key")
    (fun _ _ _ => Except.ok []) (fun _ _ _ => Except.error (PyErr.exc "down"))
    (fun _ => Except.ok ClinicData.empty) (fun _ => Except.error "down")
    (by decide)).1

/-! ## Claim C9 — eager configuration check before the crawl -/

/-- C9: for every request and any collaborator behaviours, when the
Gemini API key is unset or empty the handler answers with the distinct
500 `Gemini API configuration error` fault, and the outcome is
independent of the crawl and extraction collaborators — the
configuration is checked eagerly, before any crawl, and the crawl
collaborator is never invoked. -/
theorem C9_eager_config_check (req : ScrapeRequest) (gemini_api_key : Option String)
    (b₁ b₂ : String → Option Nat → Option Nat → Except PyErr (List Page))
    (g₁ g₂ : GenRequest → Except String ClinicData)
    (h : gemini_api_key = none ∨ gemini_api_key = some "") :
    crawl_and_extract req gemini_api_key b₁ g₁ =
      HandlerResult.fault 500
        "Gemini API configuration error: Gemini API key is required. Set GEMINI_API_KEY environment variable." ∧
    crawl_and_extract req gemini_api_key b₁ g₁ =
      crawl_and_extract req gemini_api_key b₂ g₂ := by
  rcases h with h | h <;> subst h <;> exact ⟨rfl, rfl⟩

/-- C9 witness: with no key configured, a concrete request yields the
configuration fault, for a crawl collaborator that would have succeeded. -/
theorem C9_eager_config_check_witness :
    crawl_and_extract { url := "https://example-vet-clinic.com" } none
        (fun _ _ _ => Except.ok []) (fun _ => Except.ok ClinicData.empty) =
      HandlerResult.fault 500
        "Gemini API configuration error: Gemini API key is required. Set GEMINI_API_KEY environment variable." :=
  (C9_eager_config_check { url := "https://example-vet-clinic.com" } none
    (fun _ _ _ => Except.ok []) (fun _ _ _ => Except.error (PyErr.exc "down"))
    (fun _ => Except.ok ClinicData.empty) (fun _ => Except.error "down")
    (Or.inl rfl)).1

/-! ## Claim C10 — postconditions of the crawl result processing -/

/-- C10: for every list of raw crawl results and every positive
`max_pages` limit, the page list `deep_crawl_website` returns holds at
most `max_pages` entries, and every entry has non-empty content whose
stripped length is at least 100 characters and a URL matching none of
the non-content denylist patterns. -/
theorem C10_crawl_postconditions (results : List CrawlResult) (n : Nat) (hn : 0 < n) :
    (deep_crawl_website_results results (some n)).length ≤ n ∧
    ∀ p ∈ deep_crawl_website_results results (some n),
      100 ≤ (pyStrip p.content).length ∧ _should_skip_url p.url = false ∧
      p.content ≠ "" := by
  constructor
  · have := processLoop_length_le results n hn 0
    unfold deep_crawl_website_results
    omega
  · intro p hp
    exact processLoop_mem results (some n) 0 p hp

set_option maxRecDepth 8000 in
/-- C10 witness: one successful result with substantial content, limit 1:
the returned list has at most one entry, and the returned entry satisfies
the content and URL postconditions. -/
theorem C10_crawl_postconditions_witness :
    (deep_crawl_website_results
        [{ url := "https://example-vet-clinic.com/contact", success := true,
           markdown := "This veterinary clinic provides wellness exams, vaccinations, dental cleanings, soft tissue surgery, and emergency care for dogs and cats.",
           cleaned_html := "" }] (some 1)).length ≤ 1 ∧
    100 ≤ (pyStrip (Page.mk "https://example-vet-clinic.com/contact"
      "This veterinary clinic provides wellness exams, vaccinations, dental cleanings, soft tissue surgery, and emergency care for dogs and cats.").content).length :=
  ⟨(C10_crawl_postconditions
      [{ url := "https://example-vet-clinic.com/contact", success := true,
         markdown := "This veterinary clinic provides wellness exams, vaccinations, dental cleanings, soft tissue surgery, and emergency care for dogs and cats.",
         cleaned_html := "" }] 1 (by decide)).1,
   ((C10_crawl_postconditions
      [{ url := "https://example-vet-clinic.com/contact", success := true,
         markdown := "This veterinary clinic provides wellness exams, vaccinations, dental cleanings, soft tissue surgery, and emergency care for dogs and cats.",
         cleaned_html := "" }] 1 (by decide)).2
     (Page.mk "https://example-vet-clinic.com/contact"
       "This veterinary clinic provides wellness exams, vaccinations, dental cleanings, soft tissue surgery, and emergency care for dogs and cats.")
     (by decide)).1⟩
